import Mathlib

/-!
Verification of the single-instance process lock of this repository
(`instance_lock.py`, class `InstanceLock`).

The lock's state is embedded shallowly:
* the filesystem at the lock path is an `Option String` (`none` = no lock
  file, `some c` = a lock file whose content is `c`);
* the in-memory `self.lock_file` field is a `Handle` (`noneH` for Python
  `None`, `openH` for an open file object);
* the per-process environment `Env` carries `os.getpid()`, `os.name`, an
  oracle for the OS-level liveness probe (`os.kill(pid, 0)` /
  `OpenProcess`), and one Boolean fault flag per OS-call site that can
  raise in the Python code (read, remove, exclusive create, write/flush).
  A raised exception at a site is modelled by its flag being `true`; the
  surrounding `try/except` structure of the Python code is translated
  branch by branch, so every Lean function is total: a Python exception
  that is caught and converted to a return value appears as that value.

Python string primitives used by the lock (`str.strip`, `int(...)`,
`str(pid)`) are modelled first, over ASCII text: `str.strip()` removes the
six ASCII whitespace characters (Unicode whitespace and underscore digit
grouping of `int` are not modelled; no claim depends on them).
-/

/-- The six ASCII whitespace characters removed by Python `str.strip()`. -/
def isPySpace (c : Char) : Bool :=
  c == ' ' || c == '\t' || c == '\n' || c == '\r' || c == '\x0b' || c == '\x0c'

/-- Python `s.strip()`: remove leading and trailing whitespace. -/
def pyStrip (s : String) : String :=
  String.mk (((s.toList.dropWhile isPySpace).reverse.dropWhile isPySpace).reverse)

/-- The decimal digit character for `d` (dumps anything `≥ 9` to `'9'`;
only ever applied to `n % 10`). -/
def digitChar (d : Nat) : Char :=
  if d = 0 then '0' else if d = 1 then '1' else if d = 2 then '2'
  else if d = 3 then '3' else if d = 4 then '4' else if d = 5 then '5'
  else if d = 6 then '6' else if d = 7 then '7' else if d = 8 then '8' else '9'

/-- Numeric value of a digit character. -/
def digitVal (c : Char) : Nat := c.toNat - 48

/-- Value of a nonempty string of decimal digits (most significant first);
`none` if empty or any character is not a digit. -/
def digitsToNat (cs : List Char) : Option Nat :=
  if cs = [] then none
  else if cs.all Char.isDigit then
    some (cs.foldl (fun a c => 10 * a + digitVal c) 0)
  else none

/-- Python `int(str)` after stripping: optional sign followed by digits. -/
def pyIntChars (cs : List Char) : Option Int :=
  match cs with
  | [] => none
  | c :: rest =>
    if c = '+' then (digitsToNat rest).map (fun n => (n : Int))
    else if c = '-' then (digitsToNat rest).map (fun n => -(n : Int))
    else (digitsToNat (c :: rest)).map (fun n => (n : Int))

/-- Python `int(s)` on a text string: strip whitespace, then parse an
optionally signed decimal numeral; `none` models `ValueError`. -/
def pyInt (s : String) : Option Int := pyIntChars (pyStrip s).toList

/-- Big-endian decimal digits of `n`, with explicit structural fuel
(`fuel ≥ n` suffices; returns `[]` for `n = 0`). -/
def natDigitsAux : Nat → Nat → List Char
  | 0, _ => []
  | fuel + 1, n =>
    if n = 0 then [] else natDigitsAux fuel (n / 10) ++ [digitChar (n % 10)]

/-- Decimal digit list of a natural number (Python `str(n)` for `n ≥ 0`). -/
def pyStrNatList (n : Nat) : List Char :=
  if n = 0 then ['0'] else natDigitsAux n n

/-- Python `str(n)` for a natural number. -/
def pyStrNat (n : Nat) : String := String.mk (pyStrNatList n)

/-- Python `str(i)` for an integer. -/
def pyStr (i : Int) : String :=
  if i < 0 then String.mk ('-' :: pyStrNatList i.natAbs) else pyStrNat i.toNat

theorem digitChar_isDigit (d : Nat) : (digitChar d).isDigit = true := by
  unfold digitChar
  split_ifs <;> decide

theorem isPySpace_digitChar (d : Nat) : isPySpace (digitChar d) = false := by
  unfold digitChar
  split_ifs <;> decide

theorem digitVal_digitChar (d : Nat) (h : d < 10) :
    digitVal (digitChar d) = d := by
  interval_cases d <;> decide

theorem natDigitsAux_foldl (fuel : Nat) : ∀ n a, n ≤ fuel →
    List.foldl (fun a c => 10 * a + digitVal c) a (natDigitsAux fuel n)
      = a * 10 ^ (natDigitsAux fuel n).length + n := by
  induction fuel with
  | zero =>
    intro n a h
    have hn : n = 0 := by omega
    subst hn
    simp [natDigitsAux]
  | succ k ih =>
    intro n a h
    by_cases hn : n = 0
    · subst hn
      simp [natDigitsAux]
    · have hd : n / 10 ≤ k := by omega
      simp only [natDigitsAux, if_neg hn, List.foldl_append, List.length_append]
      rw [ih (n / 10) a hd]
      simp only [List.foldl_cons, List.foldl_nil, List.length_cons, List.length_nil]
      rw [digitVal_digitChar (n % 10) (Nat.mod_lt _ (by norm_num))]
      have hmod : 10 * (n / 10) + n % 10 = n := by omega
      calc 10 * (a * 10 ^ (natDigitsAux k (n / 10)).length + n / 10) + n % 10
          = a * 10 ^ ((natDigitsAux k (n / 10)).length + (0 + 1))
              + (10 * (n / 10) + n % 10) := by ring
        _ = a * 10 ^ ((natDigitsAux k (n / 10)).length + (0 + 1)) + n := by
              rw [hmod]

theorem natDigitsAux_mem (fuel : Nat) : ∀ n c, c ∈ natDigitsAux fuel n →
    c.isDigit = true ∧ isPySpace c = false := by
  induction fuel with
  | zero =>
    intro n c hc
    simp [natDigitsAux] at hc
  | succ k ih =>
    intro n c hc
    by_cases hn : n = 0
    · subst hn
      simp [natDigitsAux] at hc
    · simp only [natDigitsAux, if_neg hn, List.mem_append,
        List.mem_singleton] at hc
      rcases hc with h | h
      · exact ih _ _ h
      · subst h
        exact ⟨digitChar_isDigit _, isPySpace_digitChar _⟩

theorem pyStrNatList_mem (n : Nat) (c : Char) (hc : c ∈ pyStrNatList n) :
    c.isDigit = true ∧ isPySpace c = false := by
  unfold pyStrNatList at hc
  by_cases hn : n = 0
  · rw [if_pos hn] at hc
    simp at hc
    subst hc
    exact ⟨by decide, by decide⟩
  · rw [if_neg hn] at hc
    exact natDigitsAux_mem n n c hc

theorem pyStrNatList_ne_nil (n : Nat) : pyStrNatList n ≠ [] := by
  unfold pyStrNatList
  by_cases hn : n = 0
  · rw [if_pos hn]
    simp
  · rw [if_neg hn]
    obtain ⟨k, hk⟩ : ∃ k, n = k + 1 := ⟨n - 1, by omega⟩
    rw [hk]
    simp only [natDigitsAux, if_neg hn]
    rw [if_neg (by omega : ¬(k + 1 = 0))]
    simp

theorem pyStrNatList_val (n : Nat) : digitsToNat (pyStrNatList n) = some n := by
  by_cases hn : n = 0
  · subst hn
    decide
  · have hall : (pyStrNatList n).all Char.isDigit = true := by
      rw [List.all_eq_true]
      intro c hc
      exact (pyStrNatList_mem n c hc).1
    unfold digitsToNat
    rw [if_neg (pyStrNatList_ne_nil n), if_pos hall]
    unfold pyStrNatList
    rw [if_neg hn]
    rw [natDigitsAux_foldl n n 0 (le_refl n)]
    simp

theorem dropWhile_eq_self_of_none (p : Char → Bool) (l : List Char)
    (h : ∀ c ∈ l, p c = false) : List.dropWhile p l = l := by
  cases l with
  | nil => rfl
  | cons a t =>
    rw [List.dropWhile_cons]
    rw [h a (List.mem_cons_self a t)]
    simp

theorem pyStrip_mk_of_nospace (l : List Char)
    (h : ∀ c ∈ l, isPySpace c = false) : pyStrip (String.mk l) = String.mk l := by
  unfold pyStrip
  have h1 : (String.mk l).toList = l := rfl
  rw [h1]
  rw [dropWhile_eq_self_of_none isPySpace l h]
  rw [dropWhile_eq_self_of_none isPySpace l.reverse
    (fun c hc => h c (List.mem_reverse.mp hc))]
  rw [List.reverse_reverse]

theorem pyIntChars_of_digits (cs : List Char) (hne : cs ≠ [])
    (hd : ∀ c ∈ cs, c.isDigit = true) (n : Nat)
    (hval : digitsToNat cs = some n) : pyIntChars cs = some (n : Int) := by
  cases cs with
  | nil => exact absurd rfl hne
  | cons c rest =>
    have hcd : c.isDigit = true := hd c (List.mem_cons_self c rest)
    have h1 : ¬(c = '+') := by
      intro e
      rw [e] at hcd
      exact absurd hcd (by decide)
    have h2 : ¬(c = '-') := by
      intro e
      rw [e] at hcd
      exact absurd hcd (by decide)
    simp only [pyIntChars, if_neg h1, if_neg h2]
    rw [hval]
    rfl

theorem pyInt_pyStrNat (n : Nat) : pyInt (pyStrNat n) = some (n : Int) := by
  unfold pyInt pyStrNat
  rw [pyStrip_mk_of_nospace (pyStrNatList n)
    (fun c hc => (pyStrNatList_mem n c hc).2)]
  have h1 : (String.mk (pyStrNatList n)).toList = pyStrNatList n := rfl
  rw [h1]
  exact pyIntChars_of_digits (pyStrNatList n) (pyStrNatList_ne_nil n)
    (fun c hc => (pyStrNatList_mem n c hc).1) n (pyStrNatList_val n)

theorem pyInt_pyStr_of_nonneg (i : Int) (h : 0 ≤ i) :
    pyInt (pyStr i) = some i := by
  unfold pyStr
  rw [if_neg (by omega : ¬(i < 0))]
  rw [pyInt_pyStrNat i.toNat]
  congr 1
  omega

theorem pyStrip_pyStr_of_nonneg (i : Int) (h : 0 ≤ i) :
    pyStrip (pyStr i) = pyStr i := by
  unfold pyStr
  rw [if_neg (by omega : ¬(i < 0))]
  unfold pyStrNat
  exact pyStrip_mk_of_nospace (pyStrNatList i.toNat)
    (fun c hc => (pyStrNatList_mem i.toNat c hc).2)

theorem pyStr_ne_empty_of_nonneg (i : Int) (h : 0 ≤ i) : pyStr i ≠ "" := by
  unfold pyStr
  rw [if_neg (by omega : ¬(i < 0))]
  unfold pyStrNat
  intro he
  have : (String.mk (pyStrNatList i.toNat)).toList = String.toList "" := by
    rw [he]
  exact pyStrNatList_ne_nil i.toNat this

theorem pyInt_empty : pyInt "" = none := by decide

/-!
The model of `InstanceLock` (src/instance_lock.py).
-/

namespace InstanceLock

/-- The per-process environment of an `InstanceLock` call: `os.name`,
the OS-level liveness probe (collapsing `os.kill(pid, 0)` on POSIX and
`OpenProcess`/`GetExitCodeProcess` on Windows to their Boolean outcome,
exception paths inside the probe already being converted to Booleans by
the code itself), `os.getpid()`, and one fault flag per OS call of the
lock logic that can raise: `readErr` = `open(path, "r")`/`read` raises a
non-`FileNotFoundError`, `removeErr` = `os.remove` raises, `openExclErr`
= `open(path, "x")` raises a non-`FileExistsError` (e.g. permission),
`writeErr` = `write`/`flush` raises after a successful creation. -/
structure Env where
  osName : String
  alive : Int → Bool
  getpid : Int
  readErr : Bool
  removeErr : Bool
  openExclErr : Bool
  writeErr : Bool

/-- The `self.lock_file` attribute: Python `None`, or an open file object
retained from the exclusive creation. -/
inductive Handle where
  | noneH
  | openH
deriving DecidableEq

/-- State touched by the lock: the filesystem at `self.lock_filename`
(`none` = absent, `some c` = present with text content `c`) and the
`self.lock_file` attribute. -/
structure LockState where
  fs : Option String
  lockFile : Handle
deriving DecidableEq

/-- `InstanceLock.is_process_running` (lines 78-87): dispatch on
`os.name`; both platform variants classify `pid <= 0` as not running and
otherwise return the probe's outcome; any other `os.name` returns
`False`. -/
def is_process_running (env : Env) (pid : Int) : Bool :=
  if env.osName = "nt" then
    if pid ≤ 0 then false else env.alive pid
  else if env.osName = "posix" then
    if pid ≤ 0 then false else env.alive pid
  else false

/-- `InstanceLock.check_and_remove_stale_lock` (lines 89-130), as a
function of the filesystem: returns the Python return value and the new
filesystem. Branches: missing file → `FileNotFoundError` → `False`;
read failure → outer `except Exception` → `False`; stripped content
empty → remove (a remove failure hits the outer `except Exception` →
`False`); content not parsing as `int` → `ValueError` handler removes
(its own remove failure is caught locally, still `True`); parsed pid
alive → `False`, not alive → remove and `True` (remove failure → outer
`except Exception` → `False`). -/
def check_and_remove_stale_lock (env : Env) (fs : Option String) :
    Bool × Option String :=
  match fs with
  | none => (false, none)
  | some content =>
    if env.readErr then (false, some content)
    else if pyStrip content = "" then
      (if env.removeErr then (false, some content) else (true, none))
    else
      match pyInt (pyStrip content) with
      | none =>
        if env.removeErr then (true, some content) else (true, none)
      | some locked_pid =>
        if is_process_running env locked_pid then (false, some content)
        else if env.removeErr then (false, some content) else (true, none)

/-- The body of `InstanceLock.acquire`'s `for attempt in range(3)` loop
(lines 136-163), with the remaining number of iterations as fuel.
Each iteration: `open(path, "x")`; on success the handle is stored in
`self.lock_file`, then `str(os.getpid())` is written and flushed (a
write/flush failure returns `False` with the just-created empty file and
the stored handle left in place); a non-`FileExistsError` creation
failure returns `False` without touching `self.lock_file`; on
`FileExistsError` the stale check runs, a `True` outcome continues the
loop (the `time.sleep` backoff has no modelled effect), a `False`
outcome returns `False`. An exhausted loop returns `False`. -/
def acquireLoop (env : Env) : LockState → Nat → Bool × LockState
  | s, 0 => (false, s)
  | s, fuel + 1 =>
    match s.fs with
    | none =>
      if env.openExclErr then (false, s)
      else if env.writeErr then
        (false, { fs := some "", lockFile := Handle.openH })
      else
        (true, { fs := some (pyStr env.getpid), lockFile := Handle.openH })
    | some _ =>
      if (check_and_remove_stale_lock env s.fs).1 then
        acquireLoop env
          { fs := (check_and_remove_stale_lock env s.fs).2,
            lockFile := s.lockFile } fuel
      else
        (false, { fs := (check_and_remove_stale_lock env s.fs).2,
                  lockFile := s.lockFile })

/-- `InstanceLock.acquire` (lines 132-163): the bounded loop with three
attempts. -/
def acquire (env : Env) (s : LockState) : Bool × LockState :=
  acquireLoop env s 3

/-- Instrumented variant of `acquireLoop` that also counts how many
exclusive-creation attempts (`open(path, "x")` calls, one per loop
iteration) are performed. -/
def acquireLoopCount (env : Env) : LockState → Nat → (Bool × LockState) × Nat
  | s, 0 => ((false, s), 0)
  | s, fuel + 1 =>
    match s.fs with
    | none =>
      if env.openExclErr then ((false, s), 1)
      else if env.writeErr then
        ((false, { fs := some "", lockFile := Handle.openH }), 1)
      else
        ((true, { fs := some (pyStr env.getpid), lockFile := Handle.openH }), 1)
    | some _ =>
      if (check_and_remove_stale_lock env s.fs).1 then
        ((acquireLoopCount env
          { fs := (check_and_remove_stale_lock env s.fs).2,
            lockFile := s.lockFile } fuel).1,
         (acquireLoopCount env
          { fs := (check_and_remove_stale_lock env s.fs).2,
            lockFile := s.lockFile } fuel).2 + 1)
      else
        ((false, { fs := (check_and_remove_stale_lock env s.fs).2,
                   lockFile := s.lockFile }), 1)

/-- `InstanceLock.release` (lines 165-207): close the retained handle and
set `self.lock_file = None`; if a file exists, read and strip it; empty
content → remove; non-integer content → `ValueError` handler removes (a
failure of either remove is caught, by the inner `except Exception` and
by the outer one respectively); content parsing to the caller's own pid →
remove (failure caught by the inner `except Exception`); any other pid →
leave the file alone. All failure paths are caught, so the function is
total. -/
def release (env : Env) (s : LockState) : LockState :=
  match s.fs with
  | none => { fs := none, lockFile := Handle.noneH }
  | some content =>
    if env.readErr then { fs := some content, lockFile := Handle.noneH }
    else if pyStrip content = "" then
      (if env.removeErr then { fs := some content, lockFile := Handle.noneH }
       else { fs := none, lockFile := Handle.noneH })
    else
      match pyInt (pyStrip content) with
      | none =>
        if env.removeErr then { fs := some content, lockFile := Handle.noneH }
        else { fs := none, lockFile := Handle.noneH }
      | some pid_in_file =>
        if pid_in_file = env.getpid then
          (if env.removeErr then
            { fs := some content, lockFile := Handle.noneH }
           else { fs := none, lockFile := Handle.noneH })
        else { fs := some content, lockFile := Handle.noneH }

end InstanceLock

namespace InstanceLock

theorem pyStrip_ne_empty_of_parsed (content : String) (p : Int)
    (hp : pyInt (pyStrip content) = some p) : ¬(pyStrip content = "") := by
  intro he
  rw [he] at hp
  rw [pyInt_empty] at hp
  exact Option.noConfusion hp

theorem check_of_running (env : Env) (content : String) (p : Int)
    (hp : pyInt (pyStrip content) = some p)
    (halive : is_process_running env p = true) :
    check_and_remove_stale_lock env (some content) = (false, some content) := by
  by_cases hrd : env.readErr
  · simp [check_and_remove_stale_lock, hrd]
  · simp only [check_and_remove_stale_lock, hrd, Bool.false_eq_true, if_false,
      if_neg (pyStrip_ne_empty_of_parsed content p hp), hp, halive, if_true]

theorem check_of_dead (env : Env) (content : String) (p : Int)
    (hrd : env.readErr = false) (hrm : env.removeErr = false)
    (hp : pyInt (pyStrip content) = some p)
    (hdead : is_process_running env p = false) :
    check_and_remove_stale_lock env (some content) = (true, none) := by
  simp only [check_and_remove_stale_lock, hrd, Bool.false_eq_true, if_false,
    if_neg (pyStrip_ne_empty_of_parsed content p hp), hp, hdead, hrm]

theorem check_of_corrupt (env : Env) (content : String)
    (hrd : env.readErr = false) (hrm : env.removeErr = false)
    (hc : pyStrip content = "" ∨ pyInt (pyStrip content) = none) :
    check_and_remove_stale_lock env (some content) = (true, none) := by
  rcases hc with hc | hc
  · simp [check_and_remove_stale_lock, hrd, hc, hrm]
  · by_cases he : pyStrip content = ""
    · simp [check_and_remove_stale_lock, hrd, he, hrm]
    · simp [check_and_remove_stale_lock, hrd, he, hc, hrm]

theorem acquireLoop_create (env : Env) (lf : Handle) (fuel : Nat)
    (h1 : env.openExclErr = false) (h2 : env.writeErr = false) :
    acquireLoop env { fs := none, lockFile := lf } (fuel + 1)
      = (true, { fs := some (pyStr env.getpid), lockFile := Handle.openH }) := by
  simp [acquireLoop, h1, h2]

theorem acquireLoop_step_exists (env : Env) (content : String) (lf : Handle)
    (fuel : Nat) :
    acquireLoop env { fs := some content, lockFile := lf } (fuel + 1)
      = (if (check_and_remove_stale_lock env (some content)).1 then
          acquireLoop env
            { fs := (check_and_remove_stale_lock env (some content)).2,
              lockFile := lf } fuel
         else
          (false, { fs := (check_and_remove_stale_lock env (some content)).2,
                    lockFile := lf })) := by
  rfl

theorem acquire_of_removable (env : Env) (content : String) (lf : Handle)
    (hoe : env.openExclErr = false) (hwr : env.writeErr = false)
    (hchk : check_and_remove_stale_lock env (some content) = (true, none)) :
    acquire env { fs := some content, lockFile := lf }
      = (true, { fs := some (pyStr env.getpid), lockFile := Handle.openH }) := by
  show acquireLoop env { fs := some content, lockFile := lf } (2 + 1) = _
  rw [acquireLoop_step_exists env content lf 2, hchk]
  simp only [if_pos rfl]
  exact acquireLoop_create env lf 1 hoe hwr

theorem acquire_of_active (env : Env) (content : String) (lf : Handle) (p : Int)
    (hp : pyInt (pyStrip content) = some p)
    (halive : is_process_running env p = true) :
    acquire env { fs := some content, lockFile := lf }
      = (false, { fs := some content, lockFile := lf }) := by
  show acquireLoop env { fs := some content, lockFile := lf } (2 + 1) = _
  rw [acquireLoop_step_exists env content lf 2,
    check_of_running env content p hp halive]
  simp

theorem release_of_other (env : Env) (content : String) (lf : Handle) (p : Int)
    (hp : pyInt (pyStrip content) = some p) (hne : ¬(p = env.getpid)) :
    release env { fs := some content, lockFile := lf }
      = { fs := some content, lockFile := Handle.noneH } := by
  by_cases hrd : env.readErr
  · simp [release, hrd]
  · simp only [release, hrd, Bool.false_eq_true, if_false,
      if_neg (pyStrip_ne_empty_of_parsed content p hp), hp, if_neg hne]

theorem release_idem (env : Env) (s : LockState) :
    release env (release env s) = release env s := by
  obtain ⟨fs, lf⟩ := s
  cases fs with
  | none => simp [release]
  | some content =>
    by_cases hrd : env.readErr
    · simp [release, hrd]
    · by_cases hemp : pyStrip content = ""
      · by_cases hrm : env.removeErr
        · simp [release, hrd, hemp, hrm]
        · simp [release, hrd, hemp, hrm]
      · cases hpi : pyInt (pyStrip content) with
        | none =>
          by_cases hrm : env.removeErr
          · simp [release, hrd, hemp, hpi, hrm]
          · simp [release, hrd, hemp, hpi, hrm]
        | some p =>
          by_cases hpd : p = env.getpid
          · by_cases hrm : env.removeErr
            · simp [release, hrd, hemp, hpi, hpd, hrm]
            · simp [release, hrd, hemp, hpi, hpd, hrm]
          · simp [release, hrd, hemp, hpi, hpd]

end InstanceLock

namespace InstanceLock

theorem check_of_readErr (env : Env) (content : String)
    (hrd : env.readErr = true) :
    check_and_remove_stale_lock env (some content) = (false, some content) := by
  simp [check_and_remove_stale_lock, hrd]

theorem check_of_empty_removeErr (env : Env) (content : String)
    (hrd : env.readErr = false) (hrm : env.removeErr = true)
    (he : pyStrip content = "") :
    check_and_remove_stale_lock env (some content) = (false, some content) := by
  simp [check_and_remove_stale_lock, hrd, he, hrm]

theorem check_of_corrupt_stuck (env : Env) (content : String)
    (hrd : env.readErr = false) (hrm : env.removeErr = true)
    (hne : ¬(pyStrip content = "")) (hc : pyInt (pyStrip content) = none) :
    check_and_remove_stale_lock env (some content) = (true, some content) := by
  simp [check_and_remove_stale_lock, hrd, hne, hc, hrm]

theorem acquireLoop_not_stale (env : Env) (content : String) (lf : Handle)
    (fuel : Nat)
    (h : (check_and_remove_stale_lock env (some content)).1 = false) :
    (acquireLoop env { fs := some content, lockFile := lf } (fuel + 1)).1
      = false := by
  rw [acquireLoop_step_exists env content lf fuel]
  rw [if_neg (by simp [h])]

theorem acquireLoop_stuck (env : Env) (content : String)
    (hchk : check_and_remove_stale_lock env (some content)
      = (true, some content)) :
    ∀ fuel lf,
      (acquireLoop env { fs := some content, lockFile := lf } fuel).1
        = false := by
  intro fuel
  induction fuel with
  | zero => intro lf; rfl
  | succ k ih =>
    intro lf
    rw [acquireLoop_step_exists env content lf k, hchk]
    simpa using ih lf

theorem acquireLoopCount_step_exists (env : Env) (content : String)
    (lf : Handle) (fuel : Nat) :
    acquireLoopCount env { fs := some content, lockFile := lf } (fuel + 1)
      = (if (check_and_remove_stale_lock env (some content)).1 then
          ((acquireLoopCount env
            { fs := (check_and_remove_stale_lock env (some content)).2,
              lockFile := lf } fuel).1,
           (acquireLoopCount env
            { fs := (check_and_remove_stale_lock env (some content)).2,
              lockFile := lf } fuel).2 + 1)
         else
          ((false,
            { fs := (check_and_remove_stale_lock env (some content)).2,
              lockFile := lf }), 1)) := by
  rfl

theorem acquireLoopCount_fst (env : Env) : ∀ fuel s,
    (acquireLoopCount env s fuel).1 = acquireLoop env s fuel := by
  intro fuel
  induction fuel with
  | zero => intro s; rfl
  | succ k ih =>
    intro s
    obtain ⟨fs, lf⟩ := s
    cases fs with
    | none =>
      simp only [acquireLoopCount, acquireLoop]
      split_ifs <;> rfl
    | some content =>
      rw [acquireLoopCount_step_exists env content lf k,
        acquireLoop_step_exists env content lf k]
      by_cases hc : (check_and_remove_stale_lock env (some content)).1 = true
      · rw [if_pos hc, if_pos hc]
        exact ih _
      · rw [if_neg hc, if_neg hc]

theorem acquireLoopCount_le (env : Env) : ∀ fuel s,
    (acquireLoopCount env s fuel).2 ≤ fuel := by
  intro fuel
  induction fuel with
  | zero => intro s; exact Nat.le_refl 0
  | succ k ih =>
    intro s
    obtain ⟨fs, lf⟩ := s
    cases fs with
    | none =>
      simp only [acquireLoopCount]
      split_ifs <;> exact Nat.succ_le_succ (Nat.zero_le k)
    | some content =>
      rw [acquireLoopCount_step_exists env content lf k]
      by_cases hc : (check_and_remove_stale_lock env (some content)).1 = true
      · rw [if_pos hc]
        exact Nat.succ_le_succ (ih _)
      · rw [if_neg hc]
        exact Nat.succ_le_succ (Nat.zero_le k)

end InstanceLock

namespace InstanceLock

/-- Claim C1 (mutual exclusion): linearizing two racing `acquire` calls at
the exclusive-creation primitive — the claim's own premise is that `'x'`
mode lets exactly one of two racing creations succeed, so the loser
observes the winner's completed record — the winner's `acquire` returns
`True` and the second process's `acquire` against the resulting filesystem
returns `False`, as long as the winner is still alive (its pid is positive,
the second process runs on a platform with a liveness check, and the probe
reports the winner alive). Hence at most one of the two calls returns
success before the other's release. -/
theorem acquire_mutual_exclusion (envA envB : Env) (lfA lfB : Handle)
    (hA1 : envA.openExclErr = false) (hA2 : envA.writeErr = false)
    (hos : envB.osName = "nt" ∨ envB.osName = "posix")
    (hpos : 0 < envA.getpid)
    (halive : envB.alive envA.getpid = true) :
    (acquire envA { fs := none, lockFile := lfA }).1 = true ∧
    (acquire envB
      { fs := (acquire envA { fs := none, lockFile := lfA }).2.fs,
        lockFile := lfB }).1 = false := by
  have hA : acquire envA { fs := none, lockFile := lfA }
      = (true, { fs := some (pyStr envA.getpid), lockFile := Handle.openH }) :=
    acquireLoop_create envA lfA 2 hA1 hA2
  constructor
  · rw [hA]
  · rw [hA]
    have hp : pyInt (pyStrip (pyStr envA.getpid)) = some envA.getpid := by
      rw [pyStrip_pyStr_of_nonneg _ (le_of_lt hpos)]
      exact pyInt_pyStr_of_nonneg _ (le_of_lt hpos)
    have hrun : is_process_running envB envA.getpid = true := by
      unfold is_process_running
      rcases hos with h | h
      · simp [h, halive, show ¬(envA.getpid ≤ 0) by omega]
      · simp [h, halive, show ¬(envA.getpid ≤ 0) by omega]
    rw [acquire_of_active envB (pyStr envA.getpid) lfB envA.getpid hp hrun]

/-- Witness for C1 at pids 101 and 202, both alive, on POSIX. -/
theorem acquire_mutual_exclusion_witness :
    (acquire ⟨"posix", fun _ => true, 101, false, false, false, false⟩
      { fs := none, lockFile := Handle.noneH }).1 = true ∧
    (acquire ⟨"posix", fun _ => true, 202, false, false, false, false⟩
      { fs := (acquire ⟨"posix", fun _ => true, 101, false, false, false, false⟩
                 { fs := none, lockFile := Handle.noneH }).2.fs,
        lockFile := Handle.noneH }).1 = false :=
  acquire_mutual_exclusion
    ⟨"posix", fun _ => true, 101, false, false, false, false⟩
    ⟨"posix", fun _ => true, 202, false, false, false, false⟩
    Handle.noneH Handle.noneH rfl rfl (Or.inr rfl) (by decide) rfl

/-- Claim C2 (staleness recovery): if the lock record's stripped content
parses to a pid that the liveness check reports not alive, and no OS call
fails, `acquire` removes the stale record, succeeds, and leaves the record
containing `str(os.getpid())` of the new caller (the removal is visible in
the final state: the old content is gone and the new caller's identifier
is the content). -/
theorem acquire_stale_recovery (env : Env) (lf : Handle) (content : String)
    (p : Int)
    (hp : pyInt (pyStrip content) = some p)
    (hdead : is_process_running env p = false)
    (hrd : env.readErr = false) (hrm : env.removeErr = false)
    (hoe : env.openExclErr = false) (hwr : env.writeErr = false) :
    acquire env { fs := some content, lockFile := lf }
      = (true, { fs := some (pyStr env.getpid), lockFile := Handle.openH }) :=
  acquire_of_removable env content lf hoe hwr
    (check_of_dead env content p hrd hrm hp hdead)

/-- Witness for C2: a record containing pid 999 of a dead process is
recovered by a caller with pid 123. -/
theorem acquire_stale_recovery_witness :
    acquire ⟨"posix", fun _ => false, 123, false, false, false, false⟩
      { fs := some "999", lockFile := Handle.noneH }
      = (true, { fs := some "123", lockFile := Handle.openH }) := by
  have h := acquire_stale_recovery
    ⟨"posix", fun _ => false, 123, false, false, false, false⟩
    Handle.noneH "999" 999 (by decide) (by decide) rfl rfl rfl rfl
  rw [h]
  decide

/-- Claim C3 (corruption recovery): if the record's stripped content is
empty or does not parse as an integer, `acquire` treats it as corrupt,
removes it, and succeeds (the final record contains the caller's pid). -/
theorem acquire_corrupt_recovery (env : Env) (lf : Handle) (content : String)
    (hc : pyStrip content = "" ∨ pyInt (pyStrip content) = none)
    (hrd : env.readErr = false) (hrm : env.removeErr = false)
    (hoe : env.openExclErr = false) (hwr : env.writeErr = false) :
    acquire env { fs := some content, lockFile := lf }
      = (true, { fs := some (pyStr env.getpid), lockFile := Handle.openH }) :=
  acquire_of_removable env content lf hoe hwr
    (check_of_corrupt env content hrd hrm hc)

/-- Witness for C3: an empty record (spec Scenario D) is removed and the
lock is taken by a caller with pid 7. -/
theorem acquire_corrupt_recovery_witness :
    acquire ⟨"posix", fun _ => true, 7, false, false, false, false⟩
      { fs := some "", lockFile := Handle.noneH }
      = (true, { fs := some "7", lockFile := Handle.openH }) := by
  have h := acquire_corrupt_recovery
    ⟨"posix", fun _ => true, 7, false, false, false, false⟩
    Handle.noneH "" (Or.inl (by decide)) rfl rfl rfl rfl
  rw [h]
  decide

/-- Claim C4 (contention leaves state unchanged): if the record's stripped
content parses to a pid that the liveness check reports alive, `acquire`
returns `False` and performs no filesystem mutation: the record's content
and existence, and the handle attribute, are exactly as before — under any
fault flags, since this path performs no write or removal at all. -/
theorem acquire_contention_frame (env : Env) (lf : Handle) (content : String)
    (p : Int)
    (hp : pyInt (pyStrip content) = some p)
    (halive : is_process_running env p = true) :
    acquire env { fs := some content, lockFile := lf }
      = (false, { fs := some content, lockFile := lf }) :=
  acquire_of_active env content lf p hp halive

/-- Witness for C4: a record owned by live pid 31 blocks a caller with
pid 55 and is left unchanged. -/
theorem acquire_contention_frame_witness :
    acquire ⟨"nt", fun _ => true, 55, false, false, false, false⟩
      { fs := some "31", lockFile := Handle.noneH }
      = (false, { fs := some "31", lockFile := Handle.noneH }) :=
  acquire_contention_frame ⟨"nt", fun _ => true, 55, false, false, false, false⟩
    Handle.noneH "31" 31 (by decide) (by decide)

/-- Claim C5 (ownership-respecting release): if the on-disk record's
stripped content parses to an integer different from the caller's own pid,
`release` leaves the record untouched (it never deletes another owner's
record), under any fault flags. -/
theorem release_other_owner_untouched (env : Env) (lf : Handle)
    (content : String) (p : Int)
    (hp : pyInt (pyStrip content) = some p)
    (hne : ¬(p = env.getpid)) :
    (release env { fs := some content, lockFile := lf }).fs = some content := by
  rw [release_of_other env content lf p hp hne]

/-- Witness for C5: a caller with pid 55 releasing over a record holding
pid 31 leaves the record in place. -/
theorem release_other_owner_untouched_witness :
    (release ⟨"posix", fun _ => true, 55, false, false, false, false⟩
      { fs := some "31", lockFile := Handle.noneH }).fs = some "31" :=
  release_other_owner_untouched
    ⟨"posix", fun _ => true, 55, false, false, false, false⟩
    Handle.noneH "31" 31 (by decide) (by decide)

end InstanceLock

namespace InstanceLock

/-- Claim C6 (acquire never raises): for each modelled error condition —
an existing lock held by a live process, a corrupt or empty record that
persists because removal keeps failing, a read failure on the existing
record, a permission failure of the exclusive creation, or a failure of
the write/flush — `acquire` returns `False`. `acquire` is a total
function into `Bool × LockState` (no exception outcome exists in the
model), mirroring the `try/except` structure of lines 136-163 that
converts every exception into a Boolean return. -/
theorem acquire_error_returns_false (env : Env) (s : LockState)
    (content : String) (p : Int)
    (h : (s.fs = some content ∧ pyInt (pyStrip content) = some p
            ∧ is_process_running env p = true)
       ∨ (s.fs = some content ∧ env.removeErr = true
            ∧ (pyStrip content = "" ∨ pyInt (pyStrip content) = none))
       ∨ (s.fs = some content ∧ env.readErr = true)
       ∨ (s.fs = none ∧ env.openExclErr = true)
       ∨ (s.fs = none ∧ env.openExclErr = false ∧ env.writeErr = true)) :
    (acquire env s).1 = false := by
  rcases h with ⟨hfs, hp, halive⟩ | ⟨hfs, hrm, hcor⟩ | ⟨hfs, hrd⟩ |
    ⟨hfs, hoe⟩ | ⟨hfs, hoe, hwr⟩
  · have hs : s = { fs := some content, lockFile := s.lockFile } := by
      rw [← hfs]
    rw [hs, acquire_of_active env content s.lockFile p hp halive]
  · have hs : s = { fs := some content, lockFile := s.lockFile } := by
      rw [← hfs]
    rw [hs]
    by_cases hrd : env.readErr = true
    · show (acquireLoop env
        { fs := some content, lockFile := s.lockFile } (2 + 1)).1 = false
      exact acquireLoop_not_stale env content s.lockFile 2
        (by rw [check_of_readErr env content hrd])
    · have hrd2 : env.readErr = false := by simpa using hrd
      by_cases he : pyStrip content = ""
      · show (acquireLoop env
          { fs := some content, lockFile := s.lockFile } (2 + 1)).1 = false
        exact acquireLoop_not_stale env content s.lockFile 2
          (by rw [check_of_empty_removeErr env content hrd2 hrm he])
      · have hn : pyInt (pyStrip content) = none := by
          rcases hcor with hc | hc
          · exact absurd hc he
          · exact hc
        exact acquireLoop_stuck env content
          (check_of_corrupt_stuck env content hrd2 hrm he hn) 3 s.lockFile
  · have hs : s = { fs := some content, lockFile := s.lockFile } := by
      rw [← hfs]
    rw [hs]
    show (acquireLoop env
      { fs := some content, lockFile := s.lockFile } (2 + 1)).1 = false
    exact acquireLoop_not_stale env content s.lockFile 2
      (by rw [check_of_readErr env content hrd])
  · have hs : s = { fs := none, lockFile := s.lockFile } := by
      rw [← hfs]
    rw [hs]
    show (acquireLoop env
      { fs := none, lockFile := s.lockFile } (2 + 1)).1 = false
    simp [acquireLoop, hoe]
  · have hs : s = { fs := none, lockFile := s.lockFile } := by
      rw [← hfs]
    rw [hs]
    show (acquireLoop env
      { fs := none, lockFile := s.lockFile } (2 + 1)).1 = false
    simp [acquireLoop, hoe, hwr]

/-- Witness for C6: acquisition against a record held by live pid 31
returns `False`. -/
theorem acquire_error_returns_false_witness :
    (acquire ⟨"nt", fun _ => true, 55, false, false, false, false⟩
      { fs := some "31", lockFile := Handle.noneH }).1 = false :=
  acquire_error_returns_false
    ⟨"nt", fun _ => true, 55, false, false, false, false⟩
    { fs := some "31", lockFile := Handle.noneH } "31" 31
    (Or.inl ⟨rfl, by decide, by decide⟩)

/-- Counterexample to claim C7 as stated: when the write of the pid fails
after a successful exclusive creation (Python: `self.lock_file =
open(path, "x")` succeeded, `self.lock_file.write(...)` raised), `acquire`
returns `False` as claimed, but `self.lock_file` still holds the open
handle of the created (empty) record — the `except Exception` branch of
lines 157-160 returns without resetting `self.lock_file` — so a partial
open handle IS retained as false proof of ownership, refuting the claim at
this concrete input. -/
theorem acquire_write_error_retains_handle_cex :
    (acquire ⟨"posix", fun _ => true, 42, false, false, false, true⟩
      { fs := none, lockFile := Handle.noneH }).1 = false ∧
    (acquire ⟨"posix", fun _ => true, 42, false, false, false, true⟩
      { fs := none, lockFile := Handle.noneH }).2
      = { fs := some "", lockFile := Handle.openH } := by
  exact ⟨rfl, rfl⟩

/-- Claim C7, amended (no partial handle on failure): on an I/O error
`acquire` returns `False`; if the error occurs during the exclusive
creation itself, `self.lock_file` is unchanged (no handle is retained),
but if the error occurs during the write/flush after a successful
creation, the newly created empty record and its open handle remain
stored in `self.lock_file`. -/
theorem acquire_io_error_no_ownership (env : Env) (lf : Handle)
    (h : env.openExclErr = true ∨ env.writeErr = true) :
    (acquire env { fs := none, lockFile := lf }).1 = false ∧
    (if env.openExclErr = true then
      (acquire env { fs := none, lockFile := lf }).2
        = { fs := none, lockFile := lf }
     else
      (acquire env { fs := none, lockFile := lf }).2
        = { fs := some "", lockFile := Handle.openH }) := by
  by_cases hoe : env.openExclErr = true
  · constructor
    · show (acquireLoop env { fs := none, lockFile := lf } (2 + 1)).1 = false
      simp [acquireLoop, hoe]
    · rw [if_pos hoe]
      show (acquireLoop env { fs := none, lockFile := lf } (2 + 1)).2 = _
      simp [acquireLoop, hoe]
  · have hoe2 : env.openExclErr = false := by simpa using hoe
    have hwr : env.writeErr = true := h.resolve_left hoe
    constructor
    · show (acquireLoop env { fs := none, lockFile := lf } (2 + 1)).1 = false
      simp [acquireLoop, hoe2, hwr]
    · rw [if_neg hoe]
      show (acquireLoop env { fs := none, lockFile := lf } (2 + 1)).2 = _
      simp [acquireLoop, hoe2, hwr]

/-- Witness for the amended C7 at a write failure with pid 7. -/
theorem acquire_io_error_no_ownership_witness :
    (acquire ⟨"posix", fun _ => true, 7, false, false, false, true⟩
      { fs := none, lockFile := Handle.noneH }).1 = false ∧
    (acquire ⟨"posix", fun _ => true, 7, false, false, false, true⟩
      { fs := none, lockFile := Handle.noneH }).2
      = { fs := some "", lockFile := Handle.openH } := by
  have h := acquire_io_error_no_ownership
    ⟨"posix", fun _ => true, 7, false, false, false, true⟩
    Handle.noneH (Or.inr rfl)
  exact ⟨h.1, by simpa using h.2⟩

end InstanceLock

namespace InstanceLock

/-- Counterexample to claim C8 as stated: a `release` call by a process
that never acquired (its `self.lock_file` is `None`) and does not own the
record is NOT a filesystem no-op when the record is corrupt — lines
196-199 remove a non-integer record — so "the no-ownership call completes
as a no-op apart from logging" is false at this concrete input: the
record `"junk"` is deleted. -/
theorem release_no_ownership_mutates_cex :
    release ⟨"posix", fun _ => false, 1, false, false, false, false⟩
      { fs := some "junk", lockFile := Handle.noneH }
      = { fs := none, lockFile := Handle.noneH } := by
  rfl

/-- Claim C8, amended (idempotent release): `release` never raises (it is
a total function, every Python exception path of lines 165-207 being
caught), calling it twice in a row is a state no-op (the second call
changes nothing over the first), and a call that finds a record holding a
different process's identifier leaves that record untouched — though a
release that finds an empty or corrupt record does remove it. -/
theorem release_idempotent_and_owner_safe (env : Env) (s : LockState)
    (content : String) (p : Int)
    (h1 : s.fs = some content)
    (h2 : pyInt (pyStrip content) = some p)
    (h3 : ¬(p = env.getpid)) :
    release env (release env s) = release env s ∧
    (release env s).fs = s.fs := by
  refine ⟨release_idem env s, ?_⟩
  have hs : s = { fs := some content, lockFile := s.lockFile } := by
    rw [← h1]
  rw [hs, release_of_other env content s.lockFile p h2 h3]

/-- Witness for the amended C8: pid 55 releasing twice over a record
holding pid 31; the record survives and the second call is a no-op. -/
theorem release_idempotent_and_owner_safe_witness :
    release ⟨"posix", fun _ => true, 55, false, false, false, false⟩
      (release ⟨"posix", fun _ => true, 55, false, false, false, false⟩
        { fs := some "31", lockFile := Handle.openH })
      = release ⟨"posix", fun _ => true, 55, false, false, false, false⟩
          { fs := some "31", lockFile := Handle.openH } ∧
    (release ⟨"posix", fun _ => true, 55, false, false, false, false⟩
      { fs := some "31", lockFile := Handle.openH }).fs = some "31" :=
  release_idempotent_and_owner_safe
    ⟨"posix", fun _ => true, 55, false, false, false, false⟩
    { fs := some "31", lockFile := Handle.openH } "31" 31
    rfl (by decide) (by decide)

/-- Claim C9 (bounded, non-waiting acquisition): `acquire` is a total
function (it always terminates; the source's `for attempt in range(3)`
is fuel 3), it agrees with the instrumented loop `acquireLoopCount`, and
that instrumentation shows at most 3 exclusive-creation attempts are
performed for every environment and state — in particular the
stale/corrupt-recovery path retries at most twice more and then returns
failure instead of waiting for the competing process. -/
theorem acquire_bounded_attempts (env : Env) (s : LockState) :
    acquire env s = (acquireLoopCount env s 3).1 ∧
    (acquireLoopCount env s 3).2 ≤ 3 :=
  ⟨(acquireLoopCount_fst env 3 s).symm, acquireLoopCount_le env 3 s⟩

/-- Claim C10 (implicit fail-open on unsupported platforms): when
`os.name` is neither `"nt"` nor `"posix"`, `is_process_running` returns
`False` for every pid (line 87), so an existing record parsing to any
integer is treated as stale: `acquire` deletes it, takes the lock, and
leaves its own pid in the record. -/
theorem unsupported_platform_fail_open (env : Env) (lf : Handle)
    (content : String) (p q : Int)
    (h1 : ¬(env.osName = "nt")) (h2 : ¬(env.osName = "posix"))
    (hp : pyInt (pyStrip content) = some p)
    (hrd : env.readErr = false) (hrm : env.removeErr = false)
    (hoe : env.openExclErr = false) (hwr : env.writeErr = false) :
    is_process_running env q = false ∧
    acquire env { fs := some content, lockFile := lf }
      = (true, { fs := some (pyStr env.getpid), lockFile := Handle.openH }) := by
  have hall : ∀ r : Int, is_process_running env r = false := by
    intro r
    simp [is_process_running, h1, h2]
  refine ⟨hall q, ?_⟩
  exact acquire_of_removable env content lf hoe hwr
    (check_of_dead env content p hrd hrm hp (hall p))

/-- Witness for C10 on a hypothetical platform name: a record holding
pid 77 is treated as stale and the lock is taken by pid 9. -/
theorem unsupported_platform_fail_open_witness :
    is_process_running ⟨"java", fun _ => true, 9, false, false, false, false⟩
      77 = false ∧
    acquire ⟨"java", fun _ => true, 9, false, false, false, false⟩
      { fs := some "77", lockFile := Handle.noneH }
      = (true, { fs := some "9", lockFile := Handle.openH }) := by
  have h := unsupported_platform_fail_open
    ⟨"java", fun _ => true, 9, false, false, false, false⟩
    Handle.noneH "77" 77 77 (by decide) (by decide) (by decide)
    rfl rfl rfl rfl
  exact ⟨h.1, by rw [h.2]; decide⟩

end InstanceLock
